/-
Verification of the Black–Scholes pricing & enrichment pipeline
(`Pricing_Functions.ipynb`): shallow embedding of `black_scholes_price`,
`calculate_bs_prices` and `enrich_option_data`, and proofs of the
specified properties.

Numbers are embedded as elements of an arbitrary linear ordered field
(instantiated at `ℚ` for concrete evaluation).  The transcendental
functions the code calls (`np.log`, `np.sqrt`, `np.exp`, `norm.cdf`) are
kept abstract as the fields of a `Transc` record, so that theorems can
quantify over them and independence from them can be stated.  A pandas
missing value (NaN) in the `impliedVolatility` column is embedded as
`Option` with `none` for NaN; NaN comparisons (`NaN <= 0` is false) and
NaN propagation through arithmetic are reflected in `bs_price_nan`.
Calendar dates are embedded as day numbers (`Int`), with `daysFromCivil`
converting a civil date to its day number.
-/
import Mathlib

variable {α : Type*} [LinearOrderedField α]

/-- The transcendental primitives used by the pricer: `np.log`, `np.sqrt`,
`np.exp` and the standard normal CDF `norm.cdf`, kept abstract. -/
structure Transc (α : Type*) where
  log : α → α
  sqrt : α → α
  exp : α → α
  cdf : α → α

/-- `black_scholes_price(S, K, T, r, sigma, option_type)` from the source:
if `T <= 0 or sigma <= 0` return the intrinsic value, otherwise the
closed-form Black–Scholes formula, dispatching on `option_type == 'call'`. -/
def black_scholes_price (tr : Transc α) (S K T r sigma : α)
    (option_type : String) : α :=
  if T ≤ 0 ∨ sigma ≤ 0 then
    if option_type = "call" then max 0 (S - K) else max 0 (K - S)
  else
    let d1 := (tr.log (S / K) + (r + (1/2) * sigma ^ 2) * T) / (sigma * tr.sqrt T)
    let d2 := d1 - sigma * tr.sqrt T
    if option_type = "call" then
      S * tr.cdf d1 - K * tr.exp (-(r * T)) * tr.cdf d2
    else
      K * tr.exp (-(r * T)) * tr.cdf (-d2) - S * tr.cdf (-d1)

/-- `black_scholes_price` as invoked by the batch driver, where the
`impliedVolatility` column may hold NaN (embedded as `none`).  In Python
`NaN <= 0` is false, so a NaN sigma skips the edge-case branch unless
`T <= 0`, and then propagates through the formula to a NaN result. -/
def bs_price_nan (tr : Transc α) (S K T r : α) (sigma : Option α)
    (option_type : String) : Option α :=
  match sigma with
  | some s => some (black_scholes_price tr S K T r s option_type)
  | none =>
    if T ≤ 0 then
      some (if option_type = "call" then max 0 (S - K) else max 0 (K - S))
    else
      none

/-- A raw option-chain record as consumed by the pipeline: the columns of
the fetched DataFrame that the core reads (`strike`, `lastPrice`,
`impliedVolatility`, `type`, `expiration`).  `impliedVolatility` is
`Option` because the column may hold NaN; `expiration` is a day number. -/
structure RawRow (α : Type*) where
  strike : α
  lastPrice : α
  impliedVolatility : Option α
  type : String
  expiration : Int
  deriving DecidableEq

/-- A record after `enrich_option_data`: the raw columns plus `moneyness`
and `days_to_expiration`. -/
structure EnrichedRow (α : Type*) extends RawRow α where
  moneyness : α
  days_to_expiration : Int
  deriving DecidableEq

/-- A record after `calculate_bs_prices`: the enriched columns plus `T`,
`bs_price` and `pricing_error` (the latter two `Option` because a NaN
sigma yields NaN price and NaN error). -/
structure PricedRow (α : Type*) extends EnrichedRow α where
  T : α
  bs_price : Option α
  pricing_error : Option α
  deriving DecidableEq

/-- `enrich_option_data(df, underlying_price)` from the source.  The code
reads `pd.Timestamp.today().normalize()` from the ambient process clock;
that clock read is surfaced here as the explicit day-number argument
`today`, computed once and shared by the whole batch.  Each row gets
`moneyness = strike / underlying_price` and
`days_to_expiration = expiration - today`; no validation is performed. -/
def enrich_option_data (today : Int) (df : List (RawRow α))
    (underlying_price : α) : List (EnrichedRow α) :=
  df.map fun row =>
    { row with
      moneyness := row.strike / underlying_price
      days_to_expiration := row.expiration - today }

/-- The default risk-free rate of `calculate_bs_prices` (`r=0.045`). -/
def default_r (α : Type*) [LinearOrderedField α] : α := 45 / 1000

/-- `calculate_bs_prices(df, S, r)` from the source: per row, compute
`T = days_to_expiration / 365`, `bs_price = black_scholes_price(S,
strike, T, r, impliedVolatility, type)` and
`pricing_error = lastPrice - bs_price`. -/
def calculate_bs_prices (tr : Transc α) (df : List (EnrichedRow α))
    (S : α) (r : α) : List (PricedRow α) :=
  df.map fun row =>
    let Tval : α := (row.days_to_expiration : α) / 365
    let bs := bs_price_nan tr S row.strike Tval r row.impliedVolatility row.type
    { row with
      T := Tval
      bs_price := bs
      pricing_error := bs.map fun v => row.lastPrice - v }

/-- `calculate_bs_prices` with the default rate `r=0.045` left implicit,
as in the source's keyword default. -/
def calculate_bs_prices_default (tr : Transc α) (df : List (EnrichedRow α))
    (S : α) : List (PricedRow α) :=
  calculate_bs_prices tr df S (default_r α)

/-- Day number of a civil calendar date (days since 1970-01-01), the
standard days-from-civil algorithm; embeds `pd.to_datetime` /
`pd.Timestamp` date arithmetic, whose `.dt.days` difference is exactly
the difference of day numbers. -/
def daysFromCivil (y m d : Int) : Int :=
  let yAdj : Int := if m ≤ 2 then y - 1 else y
  let era : Int := (if 0 ≤ yAdj then yAdj else yAdj - 399) / 400
  let yoe : Int := yAdj - era * 400
  let mp : Int := (m + 9) % 12
  let doy : Int := (153 * mp + 2) / 5 + d - 1
  let doe : Int := yoe * 365 + yoe / 4 - yoe / 100 + doy
  era * 146097 + doe - 719468

/-- A DataFrame row with every column the pipeline ever creates, used by
the store-passing embedding below, where column writes are heap updates.
Columns not yet created are `none`. -/
structure Row (α : Type*) where
  strike : α
  lastPrice : α
  impliedVolatility : Option α
  type : String
  expiration : Int
  moneyness : Option α
  current_date : Option Int
  days_to_expiration : Option Int
  Tcol : Option α
  bs_price : Option α
  pricing_error : Option α
  deriving DecidableEq

/-- Store-passing embedding of `enrich_option_data`: the store is a list
of DataFrames (each a list of rows) addressed by index, so that `df =
df.copy()` allocates a fresh frame and every subsequent column assignment
(`df["moneyness"] = ...` etc., and the `inplace=True` drop) is a store
update at the copy's address.  Returns the updated store and the address
of the result frame. -/
def enrich_option_data_store (today : Int) (h : List (List (Row α)))
    (ref : Nat) (underlying_price : α) : List (List (Row α)) × Nat :=
  let c := h.length
  let h := h ++ [h.getD ref []]
  let h := h.set c ((h.getD c []).map fun row =>
    { row with moneyness := some (row.strike / underlying_price) })
  let h := h.set c ((h.getD c []).map fun row =>
    { row with current_date := some today })
  let h := h.set c ((h.getD c []).map fun row =>
    { row with days_to_expiration :=
        row.current_date.map fun cd => row.expiration - cd })
  let h := h.set c ((h.getD c []).map fun row =>
    { row with current_date := none })
  (h, c)

/-- Store-passing embedding of `calculate_bs_prices`, in the same style as
`enrich_option_data_store`: `df = df.copy()` allocates, then the `T`,
`bs_price` and `pricing_error` column assignments update the copy. -/
def calculate_bs_prices_store (tr : Transc α) (h : List (List (Row α)))
    (ref : Nat) (S : α) (r : α) : List (List (Row α)) × Nat :=
  let c := h.length
  let h := h ++ [h.getD ref []]
  let h := h.set c ((h.getD c []).map fun row =>
    { row with Tcol := row.days_to_expiration.map fun n : Int => (n : α) / 365 })
  let h := h.set c ((h.getD c []).map fun row =>
    { row with bs_price := row.Tcol.bind fun Tv =>
        bs_price_nan tr S row.strike Tv r row.impliedVolatility row.type })
  let h := h.set c ((h.getD c []).map fun row =>
    { row with pricing_error := row.bs_price.map fun v => row.lastPrice - v })
  (h, c)

/-- The error taxonomy named by the specification. -/
inductive PricingErr where
  | invalidInput
  | missingInput
  deriving DecidableEq

/-- Modelled from the spec: the Pricer contract of §4.2, which the spec
says "fails with `InvalidInput` if `S ≤ 0` or `K ≤ 0`".  No such
validation exists in the source's `black_scholes_price`; this definition
follows the spec's words so the two can be compared. -/
def price_spec (tr : Transc α) (S K T r sigma : α) (kind : String) :
    Except PricingErr α :=
  if S ≤ 0 ∨ K ≤ 0 then .error .invalidInput
  else .ok (black_scholes_price tr S K T r sigma kind)

/-- Modelled from the spec: the Enricher contract of §4.1, which the spec
says "fails with `InvalidInput`" when `underlyingPrice ≤ 0`.  No such
validation exists in the source's `enrich_option_data`; this definition
follows the spec's words so the two can be compared. -/
def enrich_spec (today : Int) (df : List (RawRow α)) (underlying_price : α) :
    Except PricingErr (List (EnrichedRow α)) :=
  if underlying_price ≤ 0 then .error .invalidInput
  else .ok (enrich_option_data today df underlying_price)

/-- Concrete transcendental pack over `ℚ` for evaluating witnesses: all
four primitives are the identity. -/
def idTransc : Transc ℚ := ⟨fun x => x, fun x => x, fun x => x, fun x => x⟩

/-- Concrete transcendental pack over `ℚ` whose CDF is constantly `1/2`,
hence satisfies the symmetry law `Φ x + Φ (-x) = 1`. -/
def halfCdfTransc : Transc ℚ := ⟨fun x => x, fun x => x, fun x => x, fun _ => 1/2⟩

/-- A concrete raw record for witnesses. -/
def sampleRaw : RawRow ℚ :=
  { strike := 4, lastPrice := 1, impliedVolatility := some 1,
    type := "call", expiration := 10 }

/-- A concrete enriched record (implied volatility present) for witnesses. -/
def rowA : EnrichedRow ℚ :=
  { strike := 100, lastPrice := 7, impliedVolatility := some (1/2),
    type := "call", expiration := 365, moneyness := 1,
    days_to_expiration := 365 }

/-- A concrete enriched record whose implied volatility is NaN (missing). -/
def rowB : EnrichedRow ℚ :=
  { rowA with strike := 110, impliedVolatility := none }

/-- A third concrete enriched record (a put, implied volatility present). -/
def rowC : EnrichedRow ℚ :=
  { rowA with strike := 90, impliedVolatility := some (1/4), type := "put" }

/-- A concrete three-record batch whose middle record has missing implied
volatility. -/
def batch3 : List (EnrichedRow ℚ) := [rowA, rowB, rowC]

/-- Modelled from the spec: the Batch Pricing Driver contract of §4.3,
under which a record with missing `impliedVolatility` "fails that single
record with `MissingInput`".  The source's `calculate_bs_prices` does
nothing of the kind; this definition follows the spec's words so the two
can be compared. -/
def calculate_bs_prices_spec (tr : Transc α) (df : List (EnrichedRow α))
    (S : α) (r : α) : List (Except PricingErr (PricedRow α)) :=
  df.map fun row =>
    match row.impliedVolatility with
    | none => .error .missingInput
    | some s =>
      let Tval : α := (row.days_to_expiration : α) / 365
      let bs := black_scholes_price tr S row.strike Tval r s row.type
      .ok { row with
            T := Tval
            bs_price := some bs
            pricing_error := some (row.lastPrice - bs) }

/-- Claim C1: whenever `T ≤ 0` or `sigma ≤ 0` the pricer returns exactly
the intrinsic value — `max 0 (S-K)` for a call, `max 0 (K-S)` otherwise —
and the result is independent of the transcendental primitives (`log`,
`sqrt`, `exp`, normal CDF): none of them is evaluated on this branch. -/
theorem spec_c1_edge_case_intrinsic (tr tr' : Transc α) (S K T r sigma : α)
    (option_type : String) (h : T ≤ 0 ∨ sigma ≤ 0) :
    black_scholes_price tr S K T r sigma option_type =
      (if option_type = "call" then max 0 (S - K) else max 0 (K - S)) ∧
    black_scholes_price tr S K T r sigma option_type =
      black_scholes_price tr' S K T r sigma option_type := by
  constructor <;> simp only [black_scholes_price, if_pos h]

/-- Witness for C1 at `S=5, K=3, T=0, r=1, sigma=1, kind="call"` with two
distinct transcendental packs. -/
theorem spec_c1_witness :
    ((0:ℚ) ≤ 0 ∨ (1:ℚ) ≤ 0) ∧
    (black_scholes_price idTransc 5 3 0 1 1 "call" =
      (if ("call" : String) = "call" then max 0 ((5:ℚ) - 3) else max 0 (3 - 5)) ∧
    black_scholes_price idTransc 5 3 0 1 1 "call" =
      black_scholes_price halfCdfTransc 5 3 0 1 1 "call") :=
  ⟨Or.inl le_rfl,
    spec_c1_edge_case_intrinsic idTransc halfCdfTransc 5 3 0 1 1 "call"
      (Or.inl le_rfl)⟩

/-- Claim C10: the kind dispatch is a two-way default — any
`option_type` other than the exact string `"call"` is priced with the PUT
formula (or PUT intrinsic value on the edge branch), with no error. -/
theorem spec_c10_kind_default_put (tr : Transc α) (S K T r sigma : α)
    (ot : String) (h : ot ≠ "call") :
    black_scholes_price tr S K T r sigma ot =
      black_scholes_price tr S K T r sigma "put" := by
  simp only [black_scholes_price, if_neg h]
  have hput : ¬ ("put" : String) = "call" := by decide
  simp only [if_neg hput]

/-- Witness for C10 at the unrecognized kind `"CALL"` (wrong case). -/
theorem spec_c10_witness :
    ("CALL" : String) ≠ "call" ∧
    black_scholes_price idTransc 5 3 1 0 1 "CALL" =
      black_scholes_price idTransc 5 3 1 0 1 "put" :=
  ⟨by decide, spec_c10_kind_default_put idTransc 5 3 1 0 1 "CALL" (by decide)⟩

/-- Counterexample for C4: at `S = -1, K = 1, T = 1, r = 0, sigma = 1` the
spec-modelled validating pricer fails with `InvalidInput`, but the code's
`black_scholes_price` performs no validation and returns the formula value
(here `1/2` for the identity transcendental pack) — it does not fail. -/
theorem spec_c4_counterexample :
    price_spec idTransc (-1) 1 1 0 1 "call" = .error .invalidInput ∧
    black_scholes_price idTransc (-1) 1 1 0 1 "call" = 1/2 := by
  constructor
  · norm_num [price_spec]
  · norm_num [black_scholes_price, idTransc]

/-- Claim C4 (amended): the pricer performs no input validation and never
fails; on the spec's precondition domain `S > 0, K > 0` the spec-modelled
validating contract agrees with the code's total, pure function. -/
theorem spec_c4_amended (tr : Transc α) (S K T r sigma : α) (kind : String)
    (hS : 0 < S) (hK : 0 < K) :
    price_spec tr S K T r sigma kind =
      .ok (black_scholes_price tr S K T r sigma kind) := by
  unfold price_spec
  rw [if_neg]
  push_neg
  exact ⟨hS, hK⟩

/-- Witness for the amended C4 at `S = 2, K = 3`. -/
theorem spec_c4_witness :
    ((0:ℚ) < 2 ∧ (0:ℚ) < 3) ∧
    price_spec idTransc 2 3 1 0 1 "call" =
      .ok (black_scholes_price idTransc 2 3 1 0 1 "call") :=
  ⟨⟨by norm_num, by norm_num⟩,
    spec_c4_amended idTransc 2 3 1 0 1 "call" (by norm_num) (by norm_num)⟩

/-- Counterexample for C5: at `underlyingPrice = -2` the spec-modelled
validating enricher fails with `InvalidInput`, but the code's
`enrich_option_data` performs no validation and succeeds, computing the
(negative) moneyness `strike / underlyingPrice = -2`. -/
theorem spec_c5_counterexample :
    enrich_spec 0 [sampleRaw] (-2) = .error .invalidInput ∧
    (enrich_option_data 0 [sampleRaw] (-2 : ℚ)).map (fun er => er.moneyness) =
      [-2] ∧
    (enrich_option_data 0 [sampleRaw] (-2 : ℚ)).length = 1 := by
  refine ⟨by norm_num [enrich_spec], ?_, by simp [enrich_option_data]⟩
  norm_num [enrich_option_data, sampleRaw]

/-- Claim C5 (amended): the enricher performs no validation of
`underlyingPrice` and succeeds on every input, always computing
`moneyness = strike / underlyingPrice`; on the spec's precondition domain
`underlyingPrice > 0` the spec-modelled validating contract agrees with
the code. -/
theorem spec_c5_amended (today : Int) (df : List (RawRow α)) (p : α) :
    (0 < p → enrich_spec today df p = .ok (enrich_option_data today df p)) ∧
    (enrich_option_data today df p).map (fun er => er.moneyness) =
      df.map (fun row => row.strike / p) := by
  constructor
  · intro hp
    unfold enrich_spec
    rw [if_neg (not_le.mpr hp)]
  · simp [enrich_option_data, List.map_map]

/-- Witness for the amended C5 at `underlyingPrice = 2`. -/
theorem spec_c5_witness :
    ((0:ℚ) < 2) ∧
    (((0:ℚ) < 2 → enrich_spec 0 [sampleRaw] 2 =
        .ok (enrich_option_data 0 [sampleRaw] 2)) ∧
      (enrich_option_data 0 [sampleRaw] (2:ℚ)).map (fun er => er.moneyness) =
        [sampleRaw].map (fun row => row.strike / 2)) :=
  ⟨by norm_num, spec_c5_amended 0 [sampleRaw] 2⟩

/-- Indexing lemma for the driver: the i-th output row is the per-row
transform of the i-th input row. -/
theorem calculate_bs_prices_getElem (tr : Transc α) (df : List (EnrichedRow α))
    (S r : α) (i : Nat) :
    (calculate_bs_prices tr df S r)[i]? = (df[i]?).map (fun row : EnrichedRow α =>
      let Tval : α := (row.days_to_expiration : α) / 365
      let bs := bs_price_nan tr S row.strike Tval r row.impliedVolatility row.type
      { row with
        T := Tval
        bs_price := bs
        pricing_error := bs.map fun v => row.lastPrice - v }) :=
  List.getElem?_map _ df i

/-- Claim C2: for each record the driver computes `bs_price` by invoking
the pricer at the batch-wide `S`, the record's strike,
`T = days_to_expiration / 365` (the record's time-to-expiration in
years), the given rate, the record's implied volatility and kind, and
`pricing_error = lastPrice - bs_price`; the default rate is `0.045`. -/
theorem spec_c2_driver_pricing (tr : Transc α) (S r : α)
    (df : List (EnrichedRow α)) (i : Nat) (row : EnrichedRow α) (s : α)
    (hrow : df[i]? = some row) (hiv : row.impliedVolatility = some s) :
    (∃ pr : PricedRow α, (calculate_bs_prices tr df S r)[i]? = some pr ∧
      pr.bs_price = some (black_scholes_price tr S row.strike
        ((row.days_to_expiration : α) / 365) r s row.type) ∧
      pr.pricing_error = some (row.lastPrice -
        black_scholes_price tr S row.strike
          ((row.days_to_expiration : α) / 365) r s row.type)) ∧
    calculate_bs_prices_default tr df S =
      calculate_bs_prices tr df S (45 / 1000) := by
  refine ⟨?_, rfl⟩
  have h1 := calculate_bs_prices_getElem tr df S r i
  rw [hrow] at h1
  refine ⟨_, h1, ?_, ?_⟩
  · simp [bs_price_nan, hiv]
  · simp [bs_price_nan, hiv]

/-- Witness for C2 on a one-record batch. -/
theorem spec_c2_witness :
    (([rowA] : List (EnrichedRow ℚ))[0]? = some rowA ∧
      rowA.impliedVolatility = some (1/2)) ∧
    ((∃ pr : PricedRow ℚ,
      (calculate_bs_prices idTransc [rowA] 100 0)[0]? = some pr ∧
      pr.bs_price = some (black_scholes_price idTransc 100 rowA.strike
        ((rowA.days_to_expiration : ℚ) / 365) 0 (1/2) rowA.type) ∧
      pr.pricing_error = some (rowA.lastPrice -
        black_scholes_price idTransc 100 rowA.strike
          ((rowA.days_to_expiration : ℚ) / 365) 0 (1/2) rowA.type)) ∧
    calculate_bs_prices_default idTransc [rowA] 100 =
      calculate_bs_prices idTransc [rowA] 100 (45 / 1000)) :=
  ⟨⟨rfl, rfl⟩, spec_c2_driver_pricing idTransc 100 0 [rowA] 0 rowA (1/2) rfl rfl⟩

/-- Counterexample for C3: on the three-record batch whose middle record
has missing (NaN) implied volatility and positive time to expiration, the
driver neither skips the record, nor reports a side list, nor produces a
`MissingInput` failure: it returns three rows, the middle one carrying
NaN (`none`) `bs_price` and NaN `pricing_error`, while the spec-modelled
driver would report `MissingInput` for that record. -/
theorem spec_c3_counterexample :
    (calculate_bs_prices idTransc batch3 100 0).length = 3 ∧
    ((calculate_bs_prices idTransc batch3 100 0)[1]?).map
      (fun pr => pr.bs_price) = some none ∧
    ((calculate_bs_prices idTransc batch3 100 0)[1]?).map
      (fun pr => pr.pricing_error) = some none ∧
    ((calculate_bs_prices idTransc batch3 100 0)[0]?).map
      (fun pr => pr.bs_price) = some (some 225) ∧
    ((calculate_bs_prices idTransc batch3 100 0)[2]?).map
      (fun pr => pr.bs_price) = some (some (8225/18)) ∧
    (calculate_bs_prices_spec idTransc batch3 100 0)[1]? =
      some (.error .missingInput) := by
  refine ⟨by simp [calculate_bs_prices, batch3], ?_, ?_, ?_, ?_, ?_⟩
  · norm_num [calculate_bs_prices, batch3, rowA, rowB, bs_price_nan]
  · norm_num [calculate_bs_prices, batch3, rowA, rowB, bs_price_nan]
  · norm_num [calculate_bs_prices, batch3, rowA, bs_price_nan,
      black_scholes_price, idTransc]
  · norm_num [calculate_bs_prices, batch3, rowA, rowC, bs_price_nan,
      black_scholes_price, idTransc]
  · norm_num [calculate_bs_prices_spec, batch3, rowA, rowB]

/-- Claim C3 (amended): the driver never aborts — every input record
yields exactly one output row; a record with missing implied volatility
and positive time to expiration silently receives NaN (`none`) as both
`bs_price` and `pricing_error`, with no side list and no `MissingInput`
report, while records with implied volatility present are priced. -/
theorem spec_c3_amended (tr : Transc α) (S r : α) (df : List (EnrichedRow α)) :
    (calculate_bs_prices tr df S r).length = df.length ∧
    (∀ (i : Nat) (row : EnrichedRow α), df[i]? = some row → row.impliedVolatility = none →
      0 < row.days_to_expiration →
      ∃ pr : PricedRow α, (calculate_bs_prices tr df S r)[i]? = some pr ∧
        pr.bs_price = none ∧ pr.pricing_error = none) ∧
    (∀ (i : Nat) (row : EnrichedRow α) (s : α), df[i]? = some row → row.impliedVolatility = some s →
      ∃ pr : PricedRow α, ∃ v : α,
        (calculate_bs_prices tr df S r)[i]? = some pr ∧ pr.bs_price = some v) := by
  refine ⟨by simp [calculate_bs_prices], ?_, ?_⟩
  · intro i row hrow hiv hdays
    have h1 := calculate_bs_prices_getElem tr df S r i
    rw [hrow] at h1
    have hT : ¬ ((row.days_to_expiration : α) / 365 ≤ 0) := by
      push_neg
      positivity
    refine ⟨_, h1, ?_, ?_⟩
    · simp [bs_price_nan, hiv, if_neg hT]
    · simp [bs_price_nan, hiv, if_neg hT]
  · intro i row s hrow hiv
    have h1 := calculate_bs_prices_getElem tr df S r i
    rw [hrow] at h1
    refine ⟨_, black_scholes_price tr S row.strike
      ((row.days_to_expiration : α) / 365) r s row.type, h1, ?_⟩
    simp [bs_price_nan, hiv]

/-- Witness for the amended C3 on the concrete three-record batch. -/
theorem spec_c3_witness :
    (batch3[1]? = some rowB ∧ rowB.impliedVolatility = none ∧
      0 < rowB.days_to_expiration) ∧
    (∃ pr : PricedRow ℚ, (calculate_bs_prices idTransc batch3 100 0)[1]? = some pr ∧
      pr.bs_price = none ∧ pr.pricing_error = none) :=
  ⟨⟨rfl, rfl, by decide⟩,
    (spec_c3_amended idTransc 100 0 batch3).2.1 1 rowB rfl rfl (by decide)⟩

/-- Claim C6: put–call parity — over the embedded field, given the CDF
symmetry `Φ x + Φ (-x) = 1`, for `S, K, T, sigma > 0` the call price
minus the put price equals `S - K·exp(-r·T)` exactly. -/
theorem spec_c6_put_call_parity (tr : Transc α) (S K T r sigma : α)
    (hcdf : ∀ x : α, tr.cdf x + tr.cdf (-x) = 1)
    (hS : 0 < S) (hK : 0 < K) (hT : 0 < T) (hsig : 0 < sigma) :
    black_scholes_price tr S K T r sigma "call" -
      black_scholes_price tr S K T r sigma "put" =
      S - K * tr.exp (-(r * T)) := by
  have hcond : ¬ (T ≤ 0 ∨ sigma ≤ 0) := by
    push_neg
    exact ⟨hT, hsig⟩
  have key : ∀ x y : α, S * tr.cdf x - K * tr.exp (-(r * T)) * tr.cdf y -
      (K * tr.exp (-(r * T)) * tr.cdf (-y) - S * tr.cdf (-x)) =
      S - K * tr.exp (-(r * T)) := by
    intro x y
    have h1 := hcdf x
    have h2 := hcdf y
    linear_combination S * h1 - K * tr.exp (-(r * T)) * h2
  have hput : ¬ ("put" : String) = "call" := by decide
  simp only [black_scholes_price, if_neg hcond, if_neg hput, if_true]
  exact key _ _

/-- Witness for C6 with the constant-`1/2` CDF pack at
`S=2, K=3, T=1, r=0, sigma=1`. -/
theorem spec_c6_witness :
    ((∀ x : ℚ, halfCdfTransc.cdf x + halfCdfTransc.cdf (-x) = 1) ∧
      (0:ℚ) < 2 ∧ (0:ℚ) < 3 ∧ (0:ℚ) < 1 ∧ (0:ℚ) < 1) ∧
    black_scholes_price halfCdfTransc 2 3 1 0 1 "call" -
      black_scholes_price halfCdfTransc 2 3 1 0 1 "put" =
      2 - 3 * halfCdfTransc.exp (-(0 * 1)) :=
  ⟨⟨fun x => by norm_num [halfCdfTransc], by norm_num, by norm_num,
      by norm_num, by norm_num⟩,
    spec_c6_put_call_parity halfCdfTransc 2 3 1 0 1
      (fun x => by norm_num [halfCdfTransc])
      (by norm_num) (by norm_num) (by norm_num) (by norm_num)⟩

/-- Claim C7: enrichment computes `moneyness = strike / underlyingPrice`
exactly and `daysToExpiration = expirationDate - asOfDate` in calendar
days (never clamped); every record gets `T = daysToExpiration / 365` in
the driver; the calendar difference from 2025-03-01 to 2025-03-31 is 30
days, and a record with 30 days to expiration gets `T = 30/365`. -/
theorem spec_c7_enrichment_fields (today : Int) (df : List (RawRow α)) (p : α)
    (hp : 0 < p) (i : Nat) (row : RawRow α) (hrow : df[i]? = some row) :
    (∃ er : EnrichedRow α, (enrich_option_data today df p)[i]? = some er ∧
      er.moneyness = row.strike / p ∧
      er.days_to_expiration = row.expiration - today) ∧
    daysFromCivil 2025 3 31 - daysFromCivil 2025 3 1 = 30 ∧
    (∀ (tr : Transc α) (S r : α) (edf : List (EnrichedRow α)) (j : Nat)
      (er : EnrichedRow α), edf[j]? = some er →
      ∃ pr : PricedRow α, (calculate_bs_prices tr edf S r)[j]? = some pr ∧
        pr.T = (er.days_to_expiration : α) / 365 ∧
        (er.days_to_expiration = 30 → pr.T = 30 / 365)) := by
  refine ⟨?_, by decide, ?_⟩
  · have h1 := List.getElem?_map (fun row : RawRow α =>
      ({ row with
        moneyness := row.strike / p
        days_to_expiration := row.expiration - today } : EnrichedRow α)) df i
    rw [hrow] at h1
    exact ⟨_, h1, rfl, rfl⟩
  · intro tr S r edf j er hrow2
    have h1 := calculate_bs_prices_getElem tr edf S r j
    rw [hrow2] at h1
    refine ⟨_, h1, rfl, ?_⟩
    intro hdays
    show ((er.days_to_expiration : α)) / 365 = 30 / 365
    rw [hdays]
    norm_num

/-- Witness for C7 on a one-record batch at `underlyingPrice = 2`. -/
theorem spec_c7_witness :
    ((0:ℚ) < 2 ∧ ([sampleRaw] : List (RawRow ℚ))[0]? = some sampleRaw) ∧
    ((∃ er : EnrichedRow ℚ,
        (enrich_option_data 3 [sampleRaw] (2:ℚ))[0]? = some er ∧
        er.moneyness = sampleRaw.strike / 2 ∧
        er.days_to_expiration = sampleRaw.expiration - 3) ∧
      daysFromCivil 2025 3 31 - daysFromCivil 2025 3 1 = 30 ∧
      (∀ (tr : Transc ℚ) (S r : ℚ) (edf : List (EnrichedRow ℚ)) (j : Nat)
        (er : EnrichedRow ℚ), edf[j]? = some er →
        ∃ pr : PricedRow ℚ, (calculate_bs_prices tr edf S r)[j]? = some pr ∧
          pr.T = (er.days_to_expiration : ℚ) / 365 ∧
          (er.days_to_expiration = 30 → pr.T = 30 / 365))) :=
  ⟨⟨by norm_num, rfl⟩,
    spec_c7_enrichment_fields 3 [sampleRaw] 2 (by norm_num) 0 sampleRaw rfl⟩

/-- Counterexample for C8: the enricher's output does depend on the
ambient clock — the same raw record enriched when the clock reads day 0
versus day 1 yields different `days_to_expiration` (10 versus 9); the
code has no `asOfDate` parameter, it reads `pd.Timestamp.today()`. -/
theorem spec_c8_counterexample :
    (enrich_option_data 0 [sampleRaw] (1:ℚ)).map
      (fun er => er.days_to_expiration) = [10] ∧
    (enrich_option_data 1 [sampleRaw] (1:ℚ)).map
      (fun er => er.days_to_expiration) = [9] ∧
    enrich_option_data 0 [sampleRaw] (1:ℚ) ≠
      enrich_option_data 1 [sampleRaw] (1:ℚ) := by
  refine ⟨by simp [enrich_option_data, sampleRaw],
    by simp [enrich_option_data, sampleRaw], ?_⟩
  intro hcontra
  have h2 := congrArg
    (List.map (fun er : EnrichedRow ℚ => er.days_to_expiration)) hcontra
  simp [enrich_option_data, sampleRaw] at h2

/-- Claim C8 (amended): the pipeline is deterministic relative to the
clock — with the ambient current date held fixed (it is read once per
call and shared by the whole batch), re-running Enricher then Pricer on
the same inputs yields identical output, and every record's
`days_to_expiration` is its expiration minus that single shared date. -/
theorem spec_c8_amended :
    (∀ (tr : Transc α) (d d' : Int) (df : List (RawRow α)) (p S r : α),
      d = d' →
      calculate_bs_prices tr (enrich_option_data d df p) S r =
        calculate_bs_prices tr (enrich_option_data d' df p) S r) ∧
    (∀ (d : Int) (df : List (RawRow α)) (p : α) (i : Nat) (row : RawRow α),
      df[i]? = some row →
      ∃ er : EnrichedRow α, (enrich_option_data d df p)[i]? = some er ∧
        er.days_to_expiration = row.expiration - d) := by
  constructor
  · intro tr d d' df p S r hd
    rw [hd]
  · intro d df p i row hrow
    have h1 := List.getElem?_map (fun row : RawRow α =>
      ({ row with
        moneyness := row.strike / p
        days_to_expiration := row.expiration - d } : EnrichedRow α)) df i
    rw [hrow] at h1
    exact ⟨_, h1, rfl⟩

/-- Witness for the amended C8 at a fixed clock value of day 5. -/
theorem spec_c8_witness :
    ((5 : Int) = 5 ∧ ([sampleRaw] : List (RawRow ℚ))[0]? = some sampleRaw) ∧
    (calculate_bs_prices idTransc (enrich_option_data 5 [sampleRaw] 1) 100 0 =
        calculate_bs_prices idTransc (enrich_option_data 5 [sampleRaw] 1) 100 0 ∧
      ∃ er : EnrichedRow ℚ,
        (enrich_option_data 5 [sampleRaw] (1:ℚ))[0]? = some er ∧
        er.days_to_expiration = sampleRaw.expiration - 5) :=
  ⟨⟨rfl, rfl⟩,
    spec_c8_amended.1 idTransc 5 5 [sampleRaw] 1 100 0 rfl,
    spec_c8_amended.2 5 [sampleRaw] 1 0 sampleRaw rfl⟩

/-- Claim C9: neither stage mutates its input — in the store-passing
embedding, after either `enrich_option_data` or `calculate_bs_prices`
runs, the caller's DataFrame is unchanged in the store (thanks to
`df = df.copy()` every column write lands on the fresh copy), and the
returned frame is a fresh address distinct from the input's. -/
theorem spec_c9_no_mutation (tr : Transc α) (h : List (List (Row α)))
    (ref : Nat) (href : ref < h.length) (today : Int) (p S r : α) :
    ((enrich_option_data_store today h ref p).1)[ref]? = h[ref]? ∧
    (enrich_option_data_store today h ref p).2 ≠ ref ∧
    ((calculate_bs_prices_store tr h ref S r).1)[ref]? = h[ref]? ∧
    (calculate_bs_prices_store tr h ref S r).2 ≠ ref := by
  have hne : h.length ≠ ref := (Nat.ne_of_lt href).symm
  refine ⟨?_, ?_, ?_, ?_⟩
  · simp only [enrich_option_data_store]
    rw [List.getElem?_set_ne hne, List.getElem?_set_ne hne,
      List.getElem?_set_ne hne, List.getElem?_set_ne hne,
      List.getElem?_append, if_pos href]
  · simp only [enrich_option_data_store]
    exact hne
  · simp only [calculate_bs_prices_store]
    rw [List.getElem?_set_ne hne, List.getElem?_set_ne hne,
      List.getElem?_set_ne hne,
      List.getElem?_append, if_pos href]
  · simp only [calculate_bs_prices_store]
    exact hne

/-- A concrete store row for the C9 witness. -/
def storeRow : Row ℚ :=
  { strike := 4, lastPrice := 1, impliedVolatility := some 1, type := "call",
    expiration := 10, moneyness := none, current_date := none,
    days_to_expiration := none, Tcol := none, bs_price := none,
    pricing_error := none }

/-- Witness for C9 on a one-frame store. -/
theorem spec_c9_witness :
    (0 < ([[storeRow]] : List (List (Row ℚ))).length) ∧
    (((enrich_option_data_store 5 [[storeRow]] 0 2).1)[0]? =
        ([[storeRow]] : List (List (Row ℚ)))[0]? ∧
      (enrich_option_data_store 5 ([[storeRow]] : List (List (Row ℚ))) 0 2).2 ≠ 0 ∧
      ((calculate_bs_prices_store idTransc [[storeRow]] 0 100 0).1)[0]? =
        ([[storeRow]] : List (List (Row ℚ)))[0]? ∧
      (calculate_bs_prices_store idTransc [[storeRow]] 0 100 0).2 ≠ 0) :=
  ⟨by decide, spec_c9_no_mutation idTransc [[storeRow]] 0 (by decide) 5 2 100 0⟩
